import Mathlib

/-!
Shallow embedding of the calculator repository (plugin operation registry,
dispatcher `calculate_and_display_result`, `Calculation`, `Calculations` and
the pandas-backed history store `PandasFacade`).

Modelling conventions, stated once:

* Python `decimal.Decimal` values are modelled as exact rationals `ℚ`.
  Addition, subtraction, multiplication and division by small powers of ten
  are exact on the decimal values the program manipulates, so the rational
  semantics coincides with the `Decimal` semantics on them.
* The pandas dataframe held by `PandasFacade` is modelled as a list of rows
  over a small cell type (`Cell`): a cell is a string (the `operation`
  column), a numeric value, or blank.  A blank cell models a Python `None`
  (a `Calculation` whose `operate()` was never called) and, after a CSV
  load, a float `NaN`; no theorem below relies on identifying the two.
  Every facade operation (`add_record` with `ignore_index=True`, `clear`,
  `read_csv`, `drop(...).reset_index(drop=True)`) leaves the dataframe with
  the default `RangeIndex`, so pandas row labels always equal positions and
  `drop(index)` is positional deletion.
* CSV text round-trips: `to_csv` writes `str(Decimal)`, which denotes the
  stored value exactly, so a saved file is modelled by the denoted values
  themselves (`HistoryFile`).  `read_csv` parses numeric text through the
  binary64 floating-point parser; that lossy step is modelled explicitly by
  `roundB64`, rounding a rational to the nearest 53-bit dyadic rational
  (normal range; overflow and subnormals do not arise for the values here).
* The isolated-execution path (`multiprocessing.Process` plus a `Queue`) is
  modelled by the list of values the worker put on the queue: if the worker
  runs to completion it is `execute_multiprocessing`'s puts, and if the
  worker dies without producing a value the queue is empty.  The boolean
  `worker_completes` parameter of the dispatcher captures exactly this
  nondeterminism.
-/

/-- Exact decimal numbers (`decimal.Decimal`) are modelled as rationals. -/
abbrev Decimal := ℚ

/-- The six operation plugins, one constructor per file under
`calculator/plugins/`. -/
inductive Command where
  | add
  | subtract
  | multiply
  | square
  | mean
  | median
deriving DecidableEq

/-- The `operation_name` class attribute of each plugin class. -/
def Command.operation_name : Command → String
  | .add => "add"
  | .subtract => "subtract"
  | .multiply => "multiply"
  | .square => "square"
  | .mean => "mean"
  | .median => "median"

/-- `AddCommand.execute`: `return num1 + num2`. -/
def AddCommand.execute (num1 num2 : Decimal) : Decimal := num1 + num2

/-- `SubtractCommand.execute`: `return num1 - num2`. -/
def SubtractCommand.execute (num1 num2 : Decimal) : Decimal := num1 - num2

/-- `MultiplyCommand.execute`: `return num1 * num2`. -/
def MultiplyCommand.execute (num1 num2 : Decimal) : Decimal := num1 * num2

/-- `SquareCommand.execute`: `return num1 * num1` (the second operand is not
read). -/
def SquareCommand.execute (num1 num2 : Decimal) : Decimal := num1 * num1

/-- `MeanCommand.execute`: `return ( num1 + num2 )/2`. -/
def MeanCommand.execute (num1 num2 : Decimal) : Decimal := (num1 + num2) / 2

/-- `MedianCommand.execute`: `return (num1 + num2)/2`. -/
def MedianCommand.execute (num1 num2 : Decimal) : Decimal := (num1 + num2) / 2

/-- Dispatch of `execute` over the plugin classes. -/
def Command.execute : Command → Decimal → Decimal → Decimal
  | .add => AddCommand.execute
  | .subtract => SubtractCommand.execute
  | .multiply => MultiplyCommand.execute
  | .square => SquareCommand.execute
  | .mean => MeanCommand.execute
  | .median => MedianCommand.execute

/-- `AddCommand.execute_multiprocessing`: computes `self.execute(num1, num2)`
and puts the single result on the queue; the returned list is the queue
content after the worker body ran. -/
def AddCommand.execute_multiprocessing (num1 num2 : Decimal) : List Decimal :=
  [AddCommand.execute num1 num2]

/-- `SubtractCommand.execute_multiprocessing`: puts `self.execute(num1, num2)`
on the queue. -/
def SubtractCommand.execute_multiprocessing (num1 num2 : Decimal) : List Decimal :=
  [SubtractCommand.execute num1 num2]

/-- `MultiplyCommand.execute_multiprocessing`: puts `self.execute(num1, num2)`
on the queue. -/
def MultiplyCommand.execute_multiprocessing (num1 num2 : Decimal) : List Decimal :=
  [MultiplyCommand.execute num1 num2]

/-- `SquareCommand.execute_multiprocessing`: puts `self.execute(num1, num2)`
on the queue. -/
def SquareCommand.execute_multiprocessing (num1 num2 : Decimal) : List Decimal :=
  [SquareCommand.execute num1 num2]

/-- `MeanCommand.execute_multiprocessing`: puts `self.execute(num1, num2)` on
the queue. -/
def MeanCommand.execute_multiprocessing (num1 num2 : Decimal) : List Decimal :=
  [MeanCommand.execute num1 num2]

/-- `MedianCommand.execute_multiprocessing`: puts `self.execute(num1, num2)`
on the queue. -/
def MedianCommand.execute_multiprocessing (num1 num2 : Decimal) : List Decimal :=
  [MedianCommand.execute num1 num2]

/-- Dispatch of `execute_multiprocessing` over the plugin classes. -/
def Command.execute_multiprocessing : Command → Decimal → Decimal → List Decimal
  | .add => AddCommand.execute_multiprocessing
  | .subtract => SubtractCommand.execute_multiprocessing
  | .multiply => MultiplyCommand.execute_multiprocessing
  | .square => SquareCommand.execute_multiprocessing
  | .mean => MeanCommand.execute_multiprocessing
  | .median => MedianCommand.execute_multiprocessing

/-- A cell of the pandas dataframe: a string, a numeric value, or blank
(Python `None` / float `NaN`). -/
inductive Cell where
  | str (s : String)
  | num (q : Decimal)
  | blank
deriving DecidableEq

/-- The dataframe held by `PandasFacade`: column names and rows. -/
structure DataFrame where
  columns : List String
  rows : List (List Cell)
deriving DecidableEq

/-- The column shape `["operation", "num1", "num2", "result"]` the facade is
constructed with. -/
def expectedColumns : List String := ["operation", "num1", "num2", "result"]

/-- `PandasFacade.__init__`: an empty dataframe with the four columns. -/
def PandasFacade.init : DataFrame := ⟨expectedColumns, []⟩

/-- `PandasFacade.add_record`: `pd.concat([self.dataframe,
pd.DataFrame([record])], ignore_index=True)` appends the record as one new
row at the end. -/
def PandasFacade.add_record (df : DataFrame) (record : List Cell) : DataFrame :=
  ⟨df.columns, df.rows ++ [record]⟩

/-- `PandasFacade.clear`: a fresh empty dataframe with the same columns. -/
def PandasFacade.clear (df : DataFrame) : DataFrame :=
  ⟨df.columns, []⟩

/-- `PandasFacade.filter_by_operation`: rows whose `operation` column equals
the given name, in order, without mutating the store. -/
def PandasFacade.filter_by_operation (df : DataFrame) (operation : String) : DataFrame :=
  ⟨df.columns, df.rows.filter (fun r => r.head? = some (Cell.str operation))⟩

/-- Outcome of `PandasFacade.delete_record`: which of the two messages was
printed. -/
inductive DeleteOutcome where
  | deleted
  | indexOutOfRange
deriving DecidableEq

/-- `PandasFacade.delete_record`: when `0 <= index < len(self.dataframe)` the
row at position `index` is dropped (`drop` on the default `RangeIndex` is
positional) and the index is rebuilt; otherwise the dataframe is untouched
and an out-of-range message is printed. -/
def PandasFacade.delete_record (df : DataFrame) (index : ℤ) : DataFrame × DeleteOutcome :=
  if 0 ≤ index ∧ index < df.rows.length then
    (⟨df.columns, df.rows.take index.toNat ++ df.rows.drop (index.toNat + 1)⟩, .deleted)
  else
    (df, .indexOutOfRange)

/-- A `Calculation` object: two operands, the operation reference, and the
`result` field, `None` until `operate()` is called. -/
structure Calculation where
  a : Decimal
  b : Decimal
  operation : Command
  result : Option Decimal

/-- `Calculation.__init__`: stores the operands and operation and sets
`self.result = None`. -/
def Calculation.init (a b : Decimal) (operation : Command) : Calculation :=
  ⟨a, b, operation, none⟩

/-- `Calculation.operate`: sets `self.result = self.operation.execute(self.a,
self.b)` (and returns it; the updated object is the model's return value). -/
def Calculation.operate (c : Calculation) : Calculation :=
  { c with result := some (c.operation.execute c.a c.b) }

/-- The cell written for a `result` field: the value when present, otherwise
the blank cell (Python `None`). -/
def cellOfResult : Option Decimal → Cell
  | some q => Cell.num q
  | none => Cell.blank

/-- `Calculations.add_calculation`: builds the record dict
`{operation, num1, num2, result}` from the `Calculation` object, copying
`calculation.result` as-is, and appends it through the facade. -/
def Calculations.add_calculation (df : DataFrame) (calculation : Calculation) : DataFrame :=
  PandasFacade.add_record df
    [Cell.str calculation.operation.operation_name, Cell.num calculation.a,
     Cell.num calculation.b, cellOfResult calculation.result]

/-- Strip leading and trailing whitespace from a character list (the
whitespace stripping the `Decimal` constructor performs). -/
def listTrim (cs : List Char) : List Char :=
  ((cs.dropWhile Char.isWhitespace).reverse.dropWhile Char.isWhitespace).reverse

/-- Numeric value of a list of decimal digit characters (most significant
first). -/
def digitsVal (cs : List Char) : ℕ :=
  cs.foldl (fun acc c => 10 * acc + (c.toNat - Char.toNat '0')) 0

/-- Parse an optionally signed run of digits (the exponent part of a decimal
literal). -/
def parseSignedDigits (cs : List Char) : Option ℤ :=
  match cs with
  | '+' :: rest =>
      if rest ≠ [] ∧ rest.all Char.isDigit then some (digitsVal rest) else none
  | '-' :: rest =>
      if rest ≠ [] ∧ rest.all Char.isDigit then some (-(digitsVal rest : ℤ)) else none
  | rest =>
      if rest ≠ [] ∧ rest.all Char.isDigit then some (digitsVal rest) else none

/-- Parse the optional exponent suffix of a decimal literal; an empty rest
means exponent `0`. -/
def parseExponent (cs : List Char) : Option ℤ :=
  match cs with
  | [] => some 0
  | 'e' :: rest => parseSignedDigits rest
  | 'E' :: rest => parseSignedDigits rest
  | _ => none

/-- Parse the digit part of a decimal literal — `digits`, `digits.digits`,
`.digits` or `digits.` — returning its value and the unconsumed rest. -/
def parseMantissa (cs : List Char) : Option (ℚ × List Char) :=
  let (ip, rest) := cs.span Char.isDigit
  match rest with
  | '.' :: rest2 =>
      let (fp, rest3) := rest2.span Char.isDigit
      if ip.isEmpty ∧ fp.isEmpty then none
      else some ((digitsVal ip : ℚ) + (digitsVal fp : ℚ) / 10 ^ fp.length, rest3)
  | _ => if ip.isEmpty then none else some ((digitsVal ip : ℚ), rest)

/-- The `Decimal(text)` constructor on finite numeric literals: surrounding
whitespace is allowed, then an optional sign, a digit part and an optional
exponent.  Unparseable text raises `InvalidOperation`, modelled as `none`.
(`Decimal`'s special values `NaN` and `Infinity` are outside the model; the
claims quantify over numeric operands.) -/
def parseDecimal (s : String) : Option ℚ :=
  let cs := listTrim s.data
  let signValue : ℚ × List Char :=
    match cs with
    | '+' :: r => (1, r)
    | '-' :: r => (-1, r)
    | r => (1, r)
  match parseMantissa signValue.2 with
  | none => none
  | some (m, rest) =>
      match parseExponent rest with
      | none => none
      | some e => some (signValue.1 * m * (10 : ℚ) ^ e)

/-- The files `os.listdir` finds in `calculator/plugins` (listing order is
irrelevant to every claim below). -/
def plugin_files : List String :=
  ["add_command.py", "mean_command.py", "median_command.py",
   "multiply_command.py", "square_command.py", "subtract_command.py"]

/-- `getattr(module, name)` over the six plugin modules: the class each
computed class name resolves to. -/
def classFor : String → Option Command
  | "AddCommand" => some Command.add
  | "SubtractCommand" => some Command.subtract
  | "MultiplyCommand" => some Command.multiply
  | "SquareCommand" => some Command.square
  | "MeanCommand" => some Command.mean
  | "MedianCommand" => some Command.median
  | _ => none

/-- `filename.endswith(suffix)`, checked on the character lists. -/
def fileNameHasSuffix (filename suffix : String) : Bool :=
  suffix.data.isSuffixOf filename.data

/-- `load_plugins` in `main.py`: for every file ending in `_command.py`,
strip `.py` to get the module name, strip the trailing `_command` to get the
registry key, resolve the class named `key.capitalize() + "Command"`, and
register one instance under the key; a failed resolution is logged and
skipped. -/
def load_plugins : List (String × Command) :=
  plugin_files.filterMap fun filename =>
    if fileNameHasSuffix filename "_command.py" then
      let module_name := filename.dropRight 3
      let key := module_name.dropRight 8
      match classFor (key.capitalize ++ "Command") with
      | some c => some (key, c)
      | none => none
    else none

/-- `operations_dict.get(operation_key)`: first binding of the key in the
ordered mapping. -/
def dictGet (dict : List (String × Command)) (key : String) : Option Command :=
  List.lookup key dict

/-- What `calculate_and_display_result` reports for one dispatch: the
displayed result, or which error message was printed. -/
inductive DispatchOutcome where
  | ok (result : Decimal)
  | invalidInput
  | unknownOperation
  | multiprocessingFailed
deriving DecidableEq

/-- `calculate_and_display_result` in `main.py`.  Both operand texts are
parsed first (`InvalidOperation` is caught: nothing else runs).  An
unrecognized operation key prints a message and returns with history
untouched.  In multiprocessing mode the worker runs
`execute_multiprocessing`; `worker_completes = false` models the worker
process terminating without producing a value, in which case the queue is
empty when joined and an error is printed.  After either execution branch
the function unconditionally builds a fresh `Calculation`, calls
`operate()` (a synchronous recomputation) and appends it to history. -/
def calculate_and_display_result (df : DataFrame) (value1 value2 : String)
    (operation_key : String) (operations_dict : List (String × Command))
    (enable_multiprocessing : Bool) (worker_completes : Bool) :
    DispatchOutcome × DataFrame :=
  match parseDecimal value1, parseDecimal value2 with
  | some num1_decimal, some num2_decimal =>
      match dictGet operations_dict operation_key with
      | none => (.unknownOperation, df)
      | some operation_handler =>
          if enable_multiprocessing then
            let result_holder : List Decimal :=
              if worker_completes then
                operation_handler.execute_multiprocessing num1_decimal num2_decimal
              else []
            let outcome : DispatchOutcome :=
              match result_holder.head? with
              | some final_result => .ok final_result
              | none => .multiprocessingFailed
            let calc_record :=
              (Calculation.init num1_decimal num2_decimal operation_handler).operate
            (outcome, Calculations.add_calculation df calc_record)
          else
            let final_result := operation_handler.execute num1_decimal num2_decimal
            let calc_record :=
              (Calculation.init num1_decimal num2_decimal operation_handler).operate
            (.ok final_result, Calculations.add_calculation df calc_record)
  | _, _ => (.invalidInput, df)

/-- A saved history file.  `to_csv(filepath, index=False)` writes the column
names as the header line and one line per row; `str(Decimal)` denotes the
stored value exactly, so the file is modelled by the denoted cell values. -/
structure HistoryFile where
  header : List String
  rows : List (List Cell)
deriving DecidableEq

/-- The file system visible to `save_history` and `load_history`: a partial
map from paths to files. -/
def FileSystem := String → Option HistoryFile

/-- A file system with no files. -/
def emptyFS : FileSystem := fun _ => none

/-- Writing a file at a path (`to_csv` overwrites any existing file). -/
def writeFile (fs : FileSystem) (path : String) (file : HistoryFile) : FileSystem :=
  fun p => if p = path then some file else fs p

/-- `PandasFacade.save_to_file`: `self.dataframe.to_csv(filepath,
index=False)` — header then rows, no index column. -/
def PandasFacade.save_to_file (df : DataFrame) : HistoryFile :=
  ⟨df.columns, df.rows⟩

/-- `Calculations.save_history` delegates to the facade, producing the file
system with the serialized dataframe written at `filepath`. -/
def Calculations.save_history (fs : FileSystem) (filepath : String) (df : DataFrame) :
    FileSystem :=
  writeFile fs filepath (PandasFacade.save_to_file df)

/-- Fuel-driven binary length of a natural number, kernel-reducible:
`bitLenAux n n` is the number of binary digits of `n`. -/
def bitLenAux : ℕ → ℕ → ℕ
  | 0, _ => 0
  | _ + 1, 0 => 0
  | fuel + 1, n + 1 => bitLenAux fuel ((n + 1) / 2) + 1

/-- Number of binary digits of `n` (0 for 0). -/
def bitLen (n : ℕ) : ℕ := bitLenAux n n

/-- Round a rational to the nearest integer, ties to even — the rounding of
the IEEE-754 binary64 parser used by `read_csv`. -/
def roundHalfEven (x : ℚ) : ℤ :=
  let f := ⌊x⌋
  let r := x - (f : ℚ)
  if r < 1 / 2 then f
  else if 1 / 2 < r then f + 1
  else if f % 2 = 0 then f else f + 1

/-- Floor of the base-2 logarithm of a positive rational: a two-step
correction of the bit-length estimate of `num / den`. -/
def log2floor (q : ℚ) : ℤ :=
  let L : ℤ := (bitLen q.num.natAbs : ℤ) - (bitLen q.den : ℤ)
  if (2 : ℚ) ^ (L + 1) ≤ q then L + 1
  else if (2 : ℚ) ^ L ≤ q then L
  else L - 1

/-- The binary64 value the `read_csv` float parser produces for a numeric
cell: the input rounded to 53 significant binary digits, nearest-even
(normal range; the values in the claims stay far from overflow and
subnormals). -/
def roundB64 (q : ℚ) : ℚ :=
  if q = 0 then 0
  else
    let e : ℤ := 52 - log2floor |q|
    let m : ℤ := roundHalfEven (|q| * (2 : ℚ) ^ e)
    let n : ℤ := if q < 0 then -m else m
    (n : ℚ) * (2 : ℚ) ^ (-e)

/-- How `read_csv` reads one cell back: strings stay strings, numeric text
goes through the binary64 parser, an empty cell becomes `NaN` (blank). -/
def loadCell : Cell → Cell
  | .str s => .str s
  | .num q => .num (roundB64 q)
  | .blank => .blank

/-- `pd.read_csv`: the first line of the file is taken as the header —
whatever it is, with no validation against the expected columns — and every
subsequent line becomes a row of parsed cells. -/
def read_csv (file : HistoryFile) : DataFrame :=
  ⟨file.header, file.rows.map (fun r => r.map loadCell)⟩

/-- The load failures the specification names. -/
inductive LoadError where
  | fileNotFound
  | malformedHistoryFile
deriving DecidableEq

/-- `PandasFacade.load_from_file`: `pd.read_csv(filepath)` raises
`FileNotFoundError` when the path does not exist; otherwise the parsed file
is assigned to `self.dataframe`, replacing the previous state entirely (the
`df` argument, the state being replaced, is not consulted). -/
def PandasFacade.load_from_file (fs : FileSystem) (filepath : String) (df : DataFrame) :
    Except LoadError DataFrame :=
  match fs filepath with
  | none => .error .fileNotFound
  | some file => .ok (read_csv file)

/-- The numeric values left unchanged by a binary64 parse round trip. -/
def IsDyadic (q : ℚ) : Prop := ∃ (m : ℤ) (k : ℕ), q = (m : ℚ) / 2 ^ k

/-- A cell that survives `loadCell` unchanged: a string cell, or a numeric
cell holding a binary64 fixed point (blank cells come back as `NaN` and are
excluded). -/
def cellRoundTrips : Cell → Bool
  | .str _ => true
  | .num q => if roundB64 q = q then true else false
  | .blank => false

/-- The registry `load_plugins` builds, spelled out. -/
theorem load_plugins_eq :
    load_plugins =
      [("add", Command.add), ("mean", Command.mean), ("median", Command.median),
       ("multiply", Command.multiply), ("square", Command.square),
       ("subtract", Command.subtract)] := by
  rfl

/-- C6: for all decimal operands `a` and `b`, the mean operation and the
median operation return the same value, `(a + b) / 2`: the two operations
are observationally identical on any pair of operands. -/
theorem mean_median_identical (a b : Decimal) :
    MeanCommand.execute a b = MedianCommand.execute a b ∧
      MeanCommand.execute a b = (a + b) / 2 :=
  ⟨rfl, rfl⟩

/-- C7: the result of the square operation depends only on the first
operand: for every fixed `a` and any `b1`, `b2`, `square(a, b1)` equals
`square(a, b2)`, and both equal `a * a`. -/
theorem square_ignores_second_operand (a b1 b2 : Decimal) :
    SquareCommand.execute a b1 = SquareCommand.execute a b2 ∧
      SquareCommand.execute a b1 = a * a :=
  ⟨rfl, rfl⟩

/-- C8: for every operation registered by `load_plugins` and every pair of
operands, the isolated-mode path (`execute_multiprocessing` writing to the
result channel) produces exactly one value, equal to what the synchronous
`execute` returns for the same inputs. -/
theorem isolated_equals_sync (key : String) (c : Command)
    (hmem : (key, c) ∈ load_plugins) (a b : Decimal) :
    c.execute_multiprocessing a b = [c.execute a b] := by
  cases c <;> rfl

/-- Witness for C8 at the spec's scenario: `multiply` is registered, and on
operands `5` and `6` the isolated path produces exactly the synchronous
value. -/
theorem isolated_equals_sync_witness :
    ("multiply", Command.multiply) ∈ load_plugins ∧
      Command.multiply.execute_multiprocessing 5 6 = [Command.multiply.execute 5 6] :=
  ⟨by rw [load_plugins_eq]; simp,
   isolated_equals_sync "multiply" Command.multiply (by rw [load_plugins_eq]; simp) 5 6⟩

/-- C9: every binding the plugin loader registers stores, under the key
derived from the filename, an instance whose `operation_name` attribute
equals that key. -/
theorem registry_key_matches_operation_name (key : String) (c : Command)
    (h : (key, c) ∈ load_plugins) :
    c.operation_name = key := by
  rw [load_plugins_eq] at h
  simp only [List.mem_cons, Prod.mk.injEq, List.not_mem_nil, or_false] at h
  rcases h with ⟨rfl, rfl⟩ | ⟨rfl, rfl⟩ | ⟨rfl, rfl⟩ | ⟨rfl, rfl⟩ | ⟨rfl, rfl⟩ | ⟨rfl, rfl⟩ <;> rfl

/-- Witness for C9 at the `add` plugin. -/
theorem registry_key_matches_operation_name_witness :
    ("add", Command.add) ∈ load_plugins ∧ Command.add.operation_name = "add" :=
  ⟨by rw [load_plugins_eq]; simp,
   registry_key_matches_operation_name "add" Command.add (by rw [load_plugins_eq]; simp)⟩

/-- C10: `Calculations.add_calculation` always succeeds (it is a total
append) and copies the `result` field as-is: appending a `Calculation` whose
`operate()` was never called adds a record whose result cell is absent
(blank), rather than rejecting the call. -/
theorem add_calculation_copies_absent_result (df : DataFrame) (a b : Decimal)
    (op : Command) :
    Calculations.add_calculation df (Calculation.init a b op) =
      ⟨df.columns,
       df.rows ++ [[Cell.str op.operation_name, Cell.num a, Cell.num b, Cell.blank]]⟩ :=
  rfl

/-- Evaluation of the operand parser at `"3"`. -/
theorem parseDecimal_three : parseDecimal "3" = some 3 := by
  have h : parseDecimal "3" =
      some ((1 : ℚ) * ((digitsVal ['3'] : ℕ) : ℚ) * (10 : ℚ) ^ (0 : ℤ)) := rfl
  rw [h]
  norm_num [digitsVal, show ('3'.toNat - '0'.toNat : ℕ) = 3 from rfl]

/-- Evaluation of the operand parser at `"4"`. -/
theorem parseDecimal_four : parseDecimal "4" = some 4 := by
  have h : parseDecimal "4" =
      some ((1 : ℚ) * ((digitsVal ['4'] : ℕ) : ℚ) * (10 : ℚ) ^ (0 : ℤ)) := rfl
  rw [h]
  norm_num [digitsVal, show ('4'.toNat - '0'.toNat : ℕ) = 4 from rfl]

/-- Evaluation of the operand parser at `"5"`. -/
theorem parseDecimal_five : parseDecimal "5" = some 5 := by
  have h : parseDecimal "5" =
      some ((1 : ℚ) * ((digitsVal ['5'] : ℕ) : ℚ) * (10 : ℚ) ^ (0 : ℤ)) := rfl
  rw [h]
  norm_num [digitsVal, show ('5'.toNat - '0'.toNat : ℕ) = 5 from rfl]

/-- Evaluation of the operand parser at `"6"`. -/
theorem parseDecimal_six : parseDecimal "6" = some 6 := by
  have h : parseDecimal "6" =
      some ((1 : ℚ) * ((digitsVal ['6'] : ℕ) : ℚ) * (10 : ℚ) ^ (0 : ℤ)) := rfl
  rw [h]
  norm_num [digitsVal, show ('6'.toNat - '0'.toNat : ℕ) = 6 from rfl]

/-- The letter `x` is not a decimal literal. -/
theorem parseDecimal_x : parseDecimal "x" = none := rfl

/-- C2: for all valid decimal operands, dispatching `add` synchronously
displays the value `a + b`, and the history grows by exactly one record
whose four fields are `("add", a, b, a + b)`. -/
theorem dispatch_add_appends_sum (df : DataFrame) (v1 v2 : String) (a b : Decimal)
    (h1 : parseDecimal v1 = some a) (h2 : parseDecimal v2 = some b) :
    (calculate_and_display_result df v1 v2 "add" load_plugins false false).1 =
        DispatchOutcome.ok (a + b) ∧
      (calculate_and_display_result df v1 v2 "add" load_plugins false false).2.rows =
        df.rows ++ [[Cell.str "add", Cell.num a, Cell.num b, Cell.num (a + b)]] := by
  have hd : dictGet load_plugins "add" = some Command.add := rfl
  simp [calculate_and_display_result, h1, h2, hd, Calculations.add_calculation,
        PandasFacade.add_record, Calculation.init, Calculation.operate,
        Command.execute, AddCommand.execute, Command.operation_name, cellOfResult]

/-- Witness for C2 at the spec's scenario `dispatch("3", "4", "add", sync)`. -/
theorem dispatch_add_appends_sum_witness :
    (calculate_and_display_result PandasFacade.init "3" "4" "add" load_plugins false false).1 =
        DispatchOutcome.ok 7 ∧
      (calculate_and_display_result PandasFacade.init "3" "4" "add" load_plugins false false).2.rows =
        [[Cell.str "add", Cell.num 3, Cell.num 4, Cell.num 7]] := by
  have h := dispatch_add_appends_sum PandasFacade.init "3" "4" 3 4
    parseDecimal_three parseDecimal_four
  constructor
  · rw [h.1]
    norm_num
  · rw [h.2]
    norm_num [PandasFacade.init]

/-- C1 (amended): a dispatch that fails because an operand is unparseable or
because the operation name is not registered leaves the History Store
exactly unchanged; but a dispatch whose isolated-mode worker terminates
without producing a value reports the failure and nevertheless appends one
complete record, its result recomputed synchronously. -/
theorem failed_dispatch_history (df : DataFrame) (v1 v2 key : String)
    (dict : List (String × Command)) (mp wc : Bool) :
    ((parseDecimal v1 = none ∨ parseDecimal v2 = none) →
        calculate_and_display_result df v1 v2 key dict mp wc =
          (DispatchOutcome.invalidInput, df)) ∧
      (∀ a b, parseDecimal v1 = some a → parseDecimal v2 = some b →
        dictGet dict key = none →
        calculate_and_display_result df v1 v2 key dict mp wc =
          (DispatchOutcome.unknownOperation, df)) ∧
      (∀ a b c, parseDecimal v1 = some a → parseDecimal v2 = some b →
        dictGet dict key = some c →
        calculate_and_display_result df v1 v2 key dict true false =
          (DispatchOutcome.multiprocessingFailed,
           PandasFacade.add_record df
             [Cell.str c.operation_name, Cell.num a, Cell.num b,
              Cell.num (c.execute a b)])) := by
  refine ⟨?_, ?_, ?_⟩
  · rintro (h | h)
    · cases h2 : parseDecimal v2 <;>
        simp [calculate_and_display_result, h, h2]
    · cases h1 : parseDecimal v1 <;>
        simp [calculate_and_display_result, h, h1]
  · intro a b h1 h2 hd
    simp [calculate_and_display_result, h1, h2, hd]
  · intro a b c h1 h2 hd
    simp [calculate_and_display_result, h1, h2, hd, Calculations.add_calculation,
          Calculation.init, Calculation.operate, cellOfResult]

/-- Witness for C1 (amended) at the spec's scenarios: an unparseable
operand, an unknown operation, and a failed isolated `multiply` worker. -/
theorem failed_dispatch_history_witness :
    calculate_and_display_result PandasFacade.init "x" "4" "add" load_plugins false false =
        (DispatchOutcome.invalidInput, PandasFacade.init) ∧
      calculate_and_display_result PandasFacade.init "3" "4" "bogus_op" load_plugins false false =
        (DispatchOutcome.unknownOperation, PandasFacade.init) ∧
      calculate_and_display_result PandasFacade.init "5" "6" "multiply" load_plugins true false =
        (DispatchOutcome.multiprocessingFailed,
         PandasFacade.add_record PandasFacade.init
           [Cell.str "multiply", Cell.num 5, Cell.num 6, Cell.num 30]) := by
  refine ⟨?_, ?_, ?_⟩
  · exact (failed_dispatch_history PandasFacade.init "x" "4" "add" load_plugins
      false false).1 (Or.inl parseDecimal_x)
  · exact (failed_dispatch_history PandasFacade.init "3" "4" "bogus_op" load_plugins
      false false).2.1 3 4 parseDecimal_three parseDecimal_four rfl
  · have h := (failed_dispatch_history PandasFacade.init "5" "6" "multiply" load_plugins
      true false).2.2 5 6 Command.multiply parseDecimal_five parseDecimal_six rfl
    rw [h]
    norm_num [Command.operation_name, Command.execute, MultiplyCommand.execute]

/-- Counterexample to C1 as stated: the isolated-mode dispatch of
`("5", "6", "multiply")` whose worker terminates without producing a value
is reported as failed, yet the History Store does not stay unchanged — a
record is appended. -/
theorem failed_isolated_dispatch_appends :
    (calculate_and_display_result PandasFacade.init "5" "6" "multiply" load_plugins
        true false).1 = DispatchOutcome.multiprocessingFailed ∧
      (calculate_and_display_result PandasFacade.init "5" "6" "multiply" load_plugins
        true false).2 ≠ PandasFacade.init := by
  have hd : dictGet load_plugins "multiply" = some Command.multiply := rfl
  constructor
  · simp [calculate_and_display_result, parseDecimal_five, parseDecimal_six, hd]
  · intro h
    have hrows := congrArg DataFrame.rows h
    simp [calculate_and_display_result, parseDecimal_five, parseDecimal_six, hd,
          Calculations.add_calculation, PandasFacade.add_record, Calculation.init,
          Calculation.operate, cellOfResult, PandasFacade.init] at hrows

/-- C4: `delete_record(index)` with `index` in `[0, length)` reports the
deletion, keeps the columns, removes exactly one record, leaves every record
before `index` at its index and shifts every subsequent record down by one;
with `index < 0` or `index >= length` it reports out-of-range and leaves the
store completely unchanged. -/
theorem delete_record_semantics (df : DataFrame) (i : ℤ) :
    (0 ≤ i → i < (df.rows.length : ℤ) →
      (PandasFacade.delete_record df i).2 = DeleteOutcome.deleted ∧
        (PandasFacade.delete_record df i).1.columns = df.columns ∧
        (PandasFacade.delete_record df i).1.rows.length + 1 = df.rows.length ∧
        (∀ j : ℕ, j < i.toNat →
          (PandasFacade.delete_record df i).1.rows[j]? = df.rows[j]?) ∧
        (∀ j : ℕ, i.toNat ≤ j →
          (PandasFacade.delete_record df i).1.rows[j]? = df.rows[j + 1]?)) ∧
      ((i < 0 ∨ (df.rows.length : ℤ) ≤ i) →
        PandasFacade.delete_record df i = (df, DeleteOutcome.indexOutOfRange)) := by
  constructor
  · intro h0 hlt
    have hif : 0 ≤ i ∧ i < (df.rows.length : ℤ) := ⟨h0, hlt⟩
    have hk : i.toNat < df.rows.length := by omega
    have hD : PandasFacade.delete_record df i =
        (⟨df.columns, df.rows.take i.toNat ++ df.rows.drop (i.toNat + 1)⟩,
         DeleteOutcome.deleted) := by
      simp only [PandasFacade.delete_record, if_pos hif]
    rw [hD]
    refine ⟨rfl, rfl, ?_, ?_, ?_⟩
    · simp only [List.length_append, List.length_take, List.length_drop]
      omega
    · intro j hj
      rw [List.getElem?_append, List.length_take,
        if_pos (by omega : j < min i.toNat df.rows.length), List.getElem?_take,
        if_pos hj]
    · intro j hj
      rw [List.getElem?_append, List.length_take, if_neg (by omega),
        List.getElem?_drop]
      congr 1
      omega
  · intro h
    have hneg : ¬(0 ≤ i ∧ i < (df.rows.length : ℤ)) := by omega
    simp [PandasFacade.delete_record, if_neg hneg]

/-- A three-record store used to witness C4. -/
def threeRowDf : DataFrame :=
  ⟨expectedColumns, [[Cell.num 0], [Cell.num 1], [Cell.num 2]]⟩

/-- Witness for C4: on a three-record store, `delete_record(1)` keeps old
record 0 at index 0 and moves old record 2 to index 1, while
`delete_record(5)` and `delete_record(-1)` report out-of-range and change
nothing. -/
theorem delete_record_semantics_witness :
    (PandasFacade.delete_record threeRowDf 1).2 = DeleteOutcome.deleted ∧
      (PandasFacade.delete_record threeRowDf 1).1.rows.length + 1 = 3 ∧
      (PandasFacade.delete_record threeRowDf 1).1.rows[0]? = threeRowDf.rows[0]? ∧
      (PandasFacade.delete_record threeRowDf 1).1.rows[1]? = threeRowDf.rows[2]? ∧
      PandasFacade.delete_record threeRowDf 5 = (threeRowDf, DeleteOutcome.indexOutOfRange) ∧
      PandasFacade.delete_record threeRowDf (-1) = (threeRowDf, DeleteOutcome.indexOutOfRange) := by
  have hlen : (threeRowDf.rows.length : ℤ) = 3 := rfl
  have h := (delete_record_semantics threeRowDf 1).1 (by norm_num) (by rw [hlen]; norm_num)
  refine ⟨h.1, ?_, ?_, ?_, ?_, ?_⟩
  · exact h.2.2.1.trans (by rfl)
  · exact h.2.2.2.1 0 (by norm_num)
  · exact h.2.2.2.2 1 (by norm_num)
  · exact (delete_record_semantics threeRowDf 5).2 (Or.inr (by rw [hlen]; norm_num))
  · exact (delete_record_semantics threeRowDf (-1)).2 (Or.inl (by norm_num))

/-- C5 (amended): `load_from_file` fails with `FileNotFound` when the path
does not exist; when the file exists the in-memory history is fully replaced
by the file's parsed contents, independently of the previous state
(destructive overwrite, not merge) — but the header is taken as-is, with no
validation against the expected columns and no `MalformedHistoryFile`
error. -/
theorem load_from_file_semantics (fs : FileSystem) (path : String) (df df' : DataFrame) :
    (fs path = none →
        PandasFacade.load_from_file fs path df = Except.error LoadError.fileNotFound) ∧
      (∀ file, fs path = some file →
        PandasFacade.load_from_file fs path df = Except.ok (read_csv file) ∧
          PandasFacade.load_from_file fs path df =
            PandasFacade.load_from_file fs path df') := by
  constructor
  · intro h
    simp [PandasFacade.load_from_file, h]
  · intro file h
    simp [PandasFacade.load_from_file, h]

/-- A history file whose header does not match the expected columns. -/
def mismatchedFile : HistoryFile := ⟨["a", "b", "c"], []⟩

/-- A file system holding only the mismatched file at `"bad.csv"`. -/
def fsWithMismatched : FileSystem :=
  fun p => if p = "bad.csv" then some mismatchedFile else none

/-- Counterexample to C5 as stated: loading a file whose header row is
`a,b,c` — not the expected `operation,num1,num2,result` — succeeds and
installs the mismatched frame; no `MalformedHistoryFile` failure occurs. -/
theorem load_ignores_header_mismatch :
    PandasFacade.load_from_file fsWithMismatched "bad.csv" PandasFacade.init =
      Except.ok ⟨["a", "b", "c"], []⟩ := rfl

/-- A well-formed saved history file used to witness C5. -/
def goodFile : HistoryFile :=
  ⟨expectedColumns, [[Cell.str "add", Cell.num 1, Cell.num 2, Cell.num 3]]⟩

/-- A file system holding only the well-formed file at `"h.csv"`. -/
def fsWithGood : FileSystem :=
  fun p => if p = "h.csv" then some goodFile else none

/-- Witness for C5 (amended): a missing path reports `FileNotFound`, and an
existing file is loaded with the same outcome whatever the previous
in-memory state was. -/
theorem load_from_file_semantics_witness :
    PandasFacade.load_from_file emptyFS "h.csv" PandasFacade.init =
        Except.error LoadError.fileNotFound ∧
      PandasFacade.load_from_file fsWithGood "h.csv"
          (⟨expectedColumns, [[Cell.blank]]⟩ : DataFrame) = Except.ok (read_csv goodFile) ∧
      PandasFacade.load_from_file fsWithGood "h.csv"
          (⟨expectedColumns, [[Cell.blank]]⟩ : DataFrame) =
        PandasFacade.load_from_file fsWithGood "h.csv" PandasFacade.init := by
  refine ⟨?_, ?_, ?_⟩
  · exact (load_from_file_semantics emptyFS "h.csv" PandasFacade.init
      PandasFacade.init).1 rfl
  · exact ((load_from_file_semantics fsWithGood "h.csv"
      (⟨expectedColumns, [[Cell.blank]]⟩ : DataFrame) PandasFacade.init).2 goodFile rfl).1
  · exact ((load_from_file_semantics fsWithGood "h.csv"
      (⟨expectedColumns, [[Cell.blank]]⟩ : DataFrame) PandasFacade.init).2 goodFile rfl).2

/-- An integer times an integer power of two is a dyadic rational. -/
theorem isDyadic_int_mul_zpow (n k : ℤ) : IsDyadic ((n : ℚ) * (2 : ℚ) ^ k) := by
  rcases le_or_lt 0 k with hk | hk
  · refine ⟨n * 2 ^ k.toNat, 0, ?_⟩
    rw [pow_zero, div_one]
    push_cast
    rw [← zpow_natCast (2 : ℚ) k.toNat, Int.toNat_of_nonneg hk]
  · refine ⟨n, (-k).toNat, ?_⟩
    have h2 : ((2 : ℚ) ^ (-k).toNat : ℚ) = (2 : ℚ) ^ (-k) := by
      rw [← zpow_natCast (2 : ℚ) (-k).toNat,
        Int.toNat_of_nonneg (by omega : (0 : ℤ) ≤ -k)]
    rw [h2, div_eq_mul_inv, zpow_neg, inv_inv]

/-- Every value the binary64 parse model produces is dyadic. -/
theorem roundB64_isDyadic (q : ℚ) : IsDyadic (roundB64 q) := by
  unfold roundB64
  by_cases h : q = 0
  · rw [if_pos h]
    exact ⟨0, 0, by norm_num⟩
  · rw [if_neg h]
    exact isDyadic_int_mul_zpow _ _

/-- One tenth is not dyadic: `0.1` has no exact binary64 representation. -/
theorem not_isDyadic_one_tenth : ¬ IsDyadic (1 / 10 : ℚ) := by
  rintro ⟨m, k, h⟩
  have h1 : (10 : ℚ) * m = 2 ^ k := by
    field_simp at h
    linarith
  have h2 : (10 : ℤ) * m = 2 ^ k := by exact_mod_cast h1
  have h5 : (5 : ℤ) ∣ 2 ^ k := ⟨2 * m, by linarith⟩
  have hp : Prime (5 : ℤ) := by
    rw [Int.prime_iff_natAbs_prime]
    norm_num
  have h52 := hp.dvd_of_dvd_pow h5
  norm_num at h52

/-- A one-record store whose numeric fields need more precision than
binary64 carries. -/
def fractionalDf : DataFrame :=
  ⟨expectedColumns,
   [[Cell.str "add", Cell.num (1 / 10), Cell.num (1 / 5), Cell.num (3 / 10)]]⟩

/-- Counterexample to C3 as stated: saving the store holding the record
`("add", 0.1, 0.2, 0.3)`, clearing, and loading back does not reproduce the
original records — the loaded numeric values are the nearest binary64
approximations, and `0.1` has none that is exact. -/
theorem save_clear_load_not_exact :
    PandasFacade.load_from_file
        (Calculations.save_history emptyFS "h.csv" fractionalDf) "h.csv"
        (PandasFacade.clear fractionalDf) ≠ Except.ok fractionalDf := by
  intro h
  have hload : PandasFacade.load_from_file
      (Calculations.save_history emptyFS "h.csv" fractionalDf) "h.csv"
      (PandasFacade.clear fractionalDf) =
      Except.ok (⟨expectedColumns,
        [[Cell.str "add", Cell.num (roundB64 (1 / 10)), Cell.num (roundB64 (1 / 5)),
          Cell.num (roundB64 (3 / 10))]]⟩ : DataFrame) := rfl
  rw [hload] at h
  simp only [Except.ok.injEq, fractionalDf, DataFrame.mk.injEq, List.cons.injEq,
    Cell.num.injEq, and_true, true_and] at h
  exact not_isDyadic_one_tenth (h.1 ▸ roundB64_isDyadic (1 / 10))

/-- C3 (amended): `save(path)`, then `clear()`, then `load(path)` reproduces
exactly the sequence of records present before the save, provided every cell
of every record is a string or a numeric value that the binary64 parse of
`read_csv` maps to itself; numeric fields outside binary64 (and absent
results, which come back as `NaN`) are not reproduced exactly. -/
theorem save_clear_load_roundtrip (df : DataFrame) (fs : FileSystem) (path : String)
    (h : ∀ row ∈ df.rows, ∀ c ∈ row, cellRoundTrips c = true) :
    PandasFacade.load_from_file (Calculations.save_history fs path df) path
        (PandasFacade.clear df) = Except.ok df := by
  have hcell : ∀ row ∈ df.rows, ∀ c ∈ row, loadCell c = c := by
    intro row hr c hc
    have hrt := h row hr c hc
    cases c with
    | str s => rfl
    | num q =>
        simp only [cellRoundTrips] at hrt
        by_cases hq : roundB64 q = q
        · simp [loadCell, hq]
        · rw [if_neg hq] at hrt
          cases hrt
    | blank => simp [cellRoundTrips] at hrt
  have hrows : df.rows.map (fun r => r.map loadCell) = df.rows := by
    refine (List.map_congr_left ?_).trans (List.map_id df.rows)
    intro row hr
    exact (List.map_congr_left (hcell row hr)).trans (List.map_id row)
  simp [PandasFacade.load_from_file, Calculations.save_history, writeFile,
    PandasFacade.save_to_file, read_csv, hrows]

/-- A one-record store all of whose numeric fields are exactly representable
in binary64. -/
def dyadicDf : DataFrame :=
  ⟨expectedColumns, [[Cell.str "add", Cell.num 1, Cell.num 2, Cell.num 3]]⟩

/-- Witness for C3 (amended): the store holding `("add", 1, 2, 3)` satisfies
the representability hypothesis and survives save–clear–load unchanged. -/
theorem save_clear_load_roundtrip_witness :
    (∀ row ∈ dyadicDf.rows, ∀ c ∈ row, cellRoundTrips c = true) ∧
      PandasFacade.load_from_file (Calculations.save_history emptyFS "w.csv" dyadicDf)
        "w.csv" (PandasFacade.clear dyadicDf) = Except.ok dyadicDf := by
  have h1 : roundB64 1 = 1 := by
    norm_num [roundB64, log2floor, bitLen, bitLenAux, roundHalfEven]
  have h2 : roundB64 2 = 2 := by
    norm_num [roundB64, log2floor, bitLen, bitLenAux, roundHalfEven]
  have h3 : roundB64 3 = 3 := by
    norm_num [roundB64, log2floor, bitLen, bitLenAux, roundHalfEven]
  have hc : ∀ row ∈ dyadicDf.rows, ∀ c ∈ row, cellRoundTrips c = true := by
    intro row hr c hcm
    simp only [dyadicDf, List.mem_singleton] at hr
    subst hr
    simp only [List.mem_cons, List.not_mem_nil, or_false] at hcm
    rcases hcm with rfl | rfl | rfl | rfl <;>
      simp [cellRoundTrips, h1, h2, h3]
  exact ⟨hc, save_clear_load_roundtrip dyadicDf emptyFS "w.csv" hc⟩
